import Mathlib

/-!
Verification of the voice-session control facade in `src/driver.rs`
(the `PyDriver` pyclass wrapping a `songbird::driver::Driver` behind an
`Arc<Mutex<_>>`).

Embedding notes.
* The external voice engine (`songbird::Driver`) is an external collaborator;
  its state and the effect of each engine call are modelled from its
  documented interface (mute flag, bitrate target, active sources,
  configuration, connection flag).  Everything at the wrapper layer —
  endpoint normalization, the wrapping of `channel_id` in `Some`, early
  return on activation failure, error mapping — is translated directly from
  `src/driver.rs`.
* Each wrapper operation returns a triple: the Python-visible result
  (`Except PyErr _`), the session state after the operation, and the list of
  guarded engine calls the operation performed.  In the Rust code every
  engine call sits under exactly one `driver.lock().await`, so one list
  element corresponds to one critical section; an empty list means the
  session guard was never acquired.
* Points where the Rust future awaits an external outcome (the engine's
  connect result, a source's activation result) are passed in as explicit
  `Except` parameters.
-/

namespace SongbirdPy

/-- `songbird::driver::Bitrate` as used by `set_bitrate`,
`set_bitrate_to_max` and `set_bitrate_to_auto`: a closed three-case sum. -/
inductive Bitrate where
  | bitsPerSecond (n : Int)
  | max
  | auto
  deriving DecidableEq

/-- Opaque configuration value (`PyConfig.config`, a `songbird::Config`);
passed through unchanged by the wrapper. -/
structure Config where
  val : Nat
  deriving DecidableEq

/-- Opaque activated input (`songbird::input::Input`), produced by a source's
`get_input` and handed to the engine exactly once. -/
structure Input where
  id : Nat
  deriving DecidableEq

/-- Opaque track handle returned by the engine when playback starts. -/
structure TrackHandle where
  id : Nat
  deriving DecidableEq

/-- `songbird::ConnectionInfo` as constructed in `PyDriver::connect`
(fields in the order the code writes them). -/
structure ConnectionInfo where
  channel_id : Option Nat
  endpoint : String
  guild_id : Nat
  session_id : String
  token : String
  user_id : Nat
  deriving DecidableEq

/-- State of the engine session (`songbird::Driver`), modelled from the
engine's documented interface: connection flag, mute flag, outbound bitrate
target, active sources, configuration, and a counter for fresh track ids. -/
structure Session where
  connected : Bool
  muted : Bool
  bitrate : Bitrate
  activeSources : List TrackHandle
  config : Config
  nextTrackId : Nat
  deriving DecidableEq

/-- Python-level exceptions raised by the wrapper.  `useAsyncConstructorError`
and `couldNotConnectToRTPError` are the two exception types `driver.rs`
raises itself; `sourceError` stands for an arbitrary error propagated
unchanged from a source's activation. -/
inductive PyErr where
  | useAsyncConstructorError (msg : String)
  | couldNotConnectToRTPError (msg : String)
  | sourceError (msg : String)
  deriving DecidableEq

/-- One engine call performed under one acquisition of the session guard
(`driver.lock().await` in the Rust code). -/
inductive EngineCall where
  | connectCall (info : ConnectionInfo)
  | leaveCall
  | muteCall (b : Bool)
  | isMuteCall
  | playSourceCall (i : Input)
  | playOnlySourceCall (i : Input)
  | stopCall
  | setBitrateCall (b : Bitrate)
  | setConfigCall (c : Config)
  deriving DecidableEq

/-- Engine `connect`: on an `Ok` outcome the session becomes connected; on an
`Err` outcome the session is left as it was (disconnected stays
disconnected).  Modelled from the engine's documented interface. -/
def Session.engineConnect (s : Session) (_info : ConnectionInfo)
    (res : Except String Unit) : Session :=
  match res with
  | .ok _ => { s with connected := true }
  | .error _ => s

/-- Engine `leave`: disables the session. -/
def Session.engineLeave (s : Session) : Session :=
  { s with connected := false }

/-- Engine `mute(b)`: sets the mute flag. -/
def Session.engineMute (s : Session) (b : Bool) : Session :=
  { s with muted := b }

/-- Engine `is_mute()`: reads the mute flag. -/
def Session.engineIsMute (s : Session) : Bool :=
  s.muted

/-- Engine `play_source(input)`: adds one more active source and returns its
track handle. -/
def Session.enginePlaySource (s : Session) (_i : Input) :
    Session × TrackHandle :=
  letI th : TrackHandle := ⟨s.nextTrackId⟩
  ({ s with activeSources := s.activeSources ++ [th],
            nextTrackId := s.nextTrackId + 1 }, th)

/-- Engine `play_only_source(input)`: stops every other active source and
starts the new one, as one primitive; afterwards the new source is the only
active one. -/
def Session.enginePlayOnlySource (s : Session) (_i : Input) :
    Session × TrackHandle :=
  letI th : TrackHandle := ⟨s.nextTrackId⟩
  ({ s with activeSources := [th], nextTrackId := s.nextTrackId + 1 }, th)

/-- Engine `stop()`: stops all sources. -/
def Session.engineStop (s : Session) : Session :=
  { s with activeSources := [] }

/-- Engine `set_bitrate(b)`: replaces the outbound bitrate target wholesale. -/
def Session.engineSetBitrate (s : Session) (b : Bitrate) : Session :=
  { s with bitrate := b }

/-- Engine `set_config(c)`: replaces the configuration. -/
def Session.engineSetConfig (s : Session) (c : Config) : Session :=
  { s with config := c }

/-- Rust's `str::replace(pattern, replacement)` with pattern `"wss://"` and
empty replacement, as called in `PyDriver::connect`: scanning left to right,
every non-overlapping occurrence of `"wss://"` — anywhere in the string, not
only a leading one — is removed. -/
def removeWss : List Char → List Char
  | 'w' :: 's' :: 's' :: ':' :: '/' :: '/' :: rest => removeWss rest
  | c :: rest => c :: removeWss rest
  | [] => []

/-- `endpoint.replace("wss://", "")` from `PyDriver::connect`. -/
def rustReplaceWss (s : String) : String :=
  ⟨removeWss s.data⟩

/-- `songbird::Config::default()`, opaque at this layer. -/
def Config.default : Config :=
  ⟨0⟩

/-- Engine `Driver::new(config)`: a fresh, disconnected, unmuted session with
no active sources. -/
def Session.driverNew (c : Config) : Session :=
  { connected := false, muted := false, bitrate := .auto,
    activeSources := [], config := c, nextTrackId := 0 }

/-- The `Driver` pyclass: owns the guarded session. -/
structure PyDriver where
  driver : Session

/-- `PyDriver::new` (`#[new]`, `driver.rs` lines 21-27): always raises
`UseAsyncConstructorError` with the message from the source. -/
def PyDriver.new : Except PyErr PyDriver :=
  .error (.useAsyncConstructorError
    "`await Driver.create()` should be used to construct this class.")

/-- `PyDriver::create` (`driver.rs` lines 29-53): resolves the optional
config (defaulting it) and yields a driver wrapping a fresh session. -/
def PyDriver.create (config : Option Config) : Except PyErr PyDriver :=
  letI c : Config :=
    match config with
    | some py_config => py_config
    | none => Config.default
  .ok { driver := Session.driverNew c }

/-- `PyDriver::connect` (`driver.rs` lines 55-98).  The endpoint is
normalized with `String::replace`, which removes every occurrence of the
pattern; the `ConnectionInfo` wraps `channel_id` in `Some` unconditionally;
the engine is called once under the guard; an engine error is mapped to
`CouldNotConnectToRTPError` carrying the engine's diagnostic text.  The
engine's outcome is passed in as `engineRes`. -/
def PyDriver.connect (s : Session) (token endpoint session_id : String)
    (guild_id channel_id user_id : Nat) (engineRes : Except String Unit) :
    Except PyErr Unit × Session × List EngineCall :=
  letI ep : String := rustReplaceWss endpoint
  letI info : ConnectionInfo :=
    { channel_id := some channel_id, endpoint := ep, guild_id := guild_id,
      session_id := session_id, token := token, user_id := user_id }
  letI s' := s.engineConnect info engineRes
  letI res : Except PyErr Unit :=
    match engineRes with
    | .error err => .error (.couldNotConnectToRTPError err)
    | .ok _ => .ok ()
  (res, s', [.connectCall info])

/-- `PyDriver::leave` (`driver.rs` lines 100-109). -/
def PyDriver.leave (s : Session) :
    Except PyErr Unit × Session × List EngineCall :=
  (.ok (), s.engineLeave, [.leaveCall])

/-- `PyDriver::mute` (`driver.rs` lines 111-119): engine `mute(true)`. -/
def PyDriver.mute (s : Session) :
    Except PyErr Unit × Session × List EngineCall :=
  (.ok (), s.engineMute true, [.muteCall true])

/-- `PyDriver::unmute` (`driver.rs` lines 121-129): engine `mute(false)`. -/
def PyDriver.unmute (s : Session) :
    Except PyErr Unit × Session × List EngineCall :=
  (.ok (), s.engineMute false, [.muteCall false])

/-- `PyDriver::is_muted` (`driver.rs` lines 131-136): reads the engine mute
flag under the guard. -/
def PyDriver.is_muted (s : Session) :
    Except PyErr Bool × Session × List EngineCall :=
  (.ok s.engineIsMute, s, [.isMuteCall])

/-- The spec's `setMute(x)` surface: `mute()` when `x`, `unmute()` when not. -/
def PyDriver.setMute (s : Session) (x : Bool) :
    Except PyErr Unit × Session × List EngineCall :=
  if x then PyDriver.mute s else PyDriver.unmute s

/-- `PyDriver::play_source` (`driver.rs` lines 138-154): the source is
activated first (outcome passed in as `activation`); on activation failure
the error is returned before the guard is touched (empty call list); on
success the guard is acquired once to hand the input to the engine and the
track handle is returned. -/
def PyDriver.play_source (s : Session) (activation : Except PyErr Input) :
    Except PyErr TrackHandle × Session × List EngineCall :=
  match activation with
  | .error err => (.error err, s, [])
  | .ok input =>
      letI r := s.enginePlaySource input
      (.ok r.2, r.1, [.playSourceCall input])

/-- `PyDriver::play_only_source` (`driver.rs` lines 156-174): same shape as
`play_source`, but the single guarded engine call is `play_only_source`,
which stops every other source and starts the new one as one step. -/
def PyDriver.play_only_source (s : Session)
    (activation : Except PyErr Input) :
    Except PyErr TrackHandle × Session × List EngineCall :=
  match activation with
  | .error err => (.error err, s, [])
  | .ok input =>
      letI r := s.enginePlayOnlySource input
      (.ok r.2, r.1, [.playOnlySourceCall input])

/-- `PyDriver::set_bitrate` (`driver.rs` lines 176-186). -/
def PyDriver.set_bitrate (s : Session) (bitrate : Int) :
    Except PyErr Unit × Session × List EngineCall :=
  (.ok (), s.engineSetBitrate (.bitsPerSecond bitrate),
    [.setBitrateCall (.bitsPerSecond bitrate)])

/-- `PyDriver::set_bitrate_to_max` (`driver.rs` lines 188-195). -/
def PyDriver.set_bitrate_to_max (s : Session) :
    Except PyErr Unit × Session × List EngineCall :=
  (.ok (), s.engineSetBitrate .max, [.setBitrateCall .max])

/-- `PyDriver::set_bitrate_to_auto` (`driver.rs` lines 197-204). -/
def PyDriver.set_bitrate_to_auto (s : Session) :
    Except PyErr Unit × Session × List EngineCall :=
  (.ok (), s.engineSetBitrate .auto, [.setBitrateCall .auto])

/-- `PyDriver::stop` (`driver.rs` lines 206-211). -/
def PyDriver.stop (s : Session) :
    Except PyErr Unit × Session × List EngineCall :=
  (.ok (), s.engineStop, [.stopCall])

/-- `PyDriver::set_config` (`driver.rs` lines 213-221). -/
def PyDriver.set_config (s : Session) (config : Config) :
    Except PyErr Unit × Session × List EngineCall :=
  (.ok (), s.engineSetConfig config, [.setConfigCall config])

/-- The claim's endpoint normalization, stated from the spec's words for
comparison with the source: strip ONLY a leading secure-websocket scheme
prefix, leaving any later occurrence in place. -/
def specStripLeadingWss (e : String) : String :=
  match e.data with
  | 'w' :: 's' :: 's' :: ':' :: '/' :: '/' :: rest => ⟨rest⟩
  | _ => e

/-- A sample fresh session, for concrete instantiations. -/
def s0 : Session :=
  Session.driverNew Config.default

/-- A host-side operation issued concurrently; only the mute toggle is
needed here. -/
inductive HostOp where
  | setMuteOp (b : Bool)
  deriving DecidableEq

/-- Running one serialization of host operations.  Because each operation
performs its engine access inside a single critical section of the session
guard, a concurrent execution is observationally some serialization. -/
def runOps (s : Session) (ops : List HostOp) : Session :=
  match ops with
  | [] => s
  | .setMuteOp b :: rest => runOps (PyDriver.setMute s b).2.1 rest

/-- All interleavings of two sequences of host operations. -/
def interleavings : List HostOp → List HostOp → List (List HostOp)
  | [], ys => [ys]
  | x :: xs, [] => [x :: xs]
  | x :: xs, y :: ys =>
      ((interleavings xs (y :: ys)).map (fun l => x :: l)) ++
        ((interleavings (x :: xs) ys).map (fun l => y :: l))
  termination_by xs ys => xs.length + ys.length

/-- Claim C1, counterexample: `connect` normalizes the endpoint with
`String::replace`, which removes EVERY occurrence of the scheme prefix, not
only a leading one.  On input endpoint `"wss://wss://voice.example.com"`
the engine receives `"voice.example.com"`, while stripping only the leading
prefix would give `"wss://voice.example.com"`. -/
theorem connect_endpoint_not_only_leading_strip :
    ∃ info : ConnectionInfo,
      (PyDriver.connect s0 "T" "wss://wss://voice.example.com" "S" 1 2 3
          (.ok ())).2.2 = [.connectCall info]
        ∧ info.endpoint = "voice.example.com"
        ∧ specStripLeadingWss "wss://wss://voice.example.com"
            = "wss://voice.example.com"
        ∧ info.endpoint ≠ specStripLeadingWss "wss://wss://voice.example.com" := by
  refine ⟨_, rfl, ?_, ?_, ?_⟩ <;> decide

/-- Claim C1 (amended): the endpoint handed to the engine is the input
endpoint with every occurrence of the secure-websocket scheme prefix
removed (the semantics of `String::replace`); on endpoints that carry the
prefix at most once and only in leading position — including both inputs
cited by the claim — this coincides with stripping a leading prefix, and
every other field (token, sessionId, guildId, channelId as a present value,
userId) reaches the engine unchanged. -/
theorem connect_endpoint_replace_all_fields_unchanged
    (s : Session) (token endpoint session_id : String)
    (guild_id channel_id user_id : Nat) (er : Except String Unit) :
    (∃ info : ConnectionInfo,
        (PyDriver.connect s token endpoint session_id guild_id channel_id
            user_id er).2.2 = [.connectCall info]
          ∧ info.endpoint = rustReplaceWss endpoint
          ∧ info.token = token ∧ info.session_id = session_id
          ∧ info.guild_id = guild_id ∧ info.channel_id = some channel_id
          ∧ info.user_id = user_id)
      ∧ rustReplaceWss "wss://voice.example.com" = "voice.example.com"
      ∧ rustReplaceWss "voice.example.com" = "voice.example.com"
      ∧ specStripLeadingWss "wss://voice.example.com" = "voice.example.com"
      ∧ specStripLeadingWss "voice.example.com" = "voice.example.com" := by
  exact ⟨⟨_, rfl, rfl, rfl, rfl, rfl, rfl, rfl⟩,
    by decide, by decide, by decide, by decide⟩

/-- Claim C2, counterexample: `channel_id` is a required parameter of
`connect` and is always forwarded wrapped in `Some`; at the concrete call
below the engine receives `some 2`, not an absent channel id. -/
theorem connect_channel_id_never_absent :
    ∃ info : ConnectionInfo,
      (PyDriver.connect s0 "T" "a.example.com" "S" 1 2 3 (.ok ())).2.2
          = [.connectCall info]
        ∧ info.channel_id = some 2
        ∧ info.channel_id ≠ none := by
  exact ⟨_, rfl, rfl, by decide⟩

/-- Claim C2 (amended): `channelId` is a required parameter of `connect`;
the wrapper always forwards it to the engine wrapped as a present value
(`Some channelId`), never as an absence; the remaining fields (token,
endpoint after normalization, sessionId, guildId, userId) are forwarded as
given. -/
theorem connect_channel_id_always_some (s : Session) (t ep sid : String)
    (g c u : Nat) (er : Except String Unit) :
    ∃ info : ConnectionInfo,
      (PyDriver.connect s t ep sid g c u er).2.2 = [.connectCall info]
        ∧ info.channel_id = some c
        ∧ info.token = t ∧ info.endpoint = rustReplaceWss ep
        ∧ info.session_id = sid ∧ info.guild_id = g ∧ info.user_id = u := by
  exact ⟨_, rfl, rfl, rfl, rfl, rfl, rfl, rfl⟩

/-- Claim C3: the zero-argument constructor always fails with
`UseAsyncConstructorError` carrying the message that directs the caller to
the asynchronous factory, and never yields a handle; the factory `create`
succeeds for every optional config, so it is the construction path that
returns a handle. -/
theorem new_always_usage_error_create_only_path :
    (PyDriver.new = .error (.useAsyncConstructorError
        "`await Driver.create()` should be used to construct this class."))
      ∧ (∀ d : PyDriver, PyDriver.new ≠ .ok d)
      ∧ (∀ cfg : Option Config, ∃ d : PyDriver, PyDriver.create cfg = .ok d) :=
  ⟨rfl, fun d h => by simp [PyDriver.new] at h, fun cfg => ⟨_, rfl⟩⟩

/-- Claim C4: in `play_source` the activation outcome is examined before the
session guard is touched.  On activation failure the same error is
returned, the session is unchanged (in particular the active-source count
is unchanged) and no engine call happens — the critical-section list is
empty.  On success the guard is acquired for exactly one engine call,
handing over the activated input, and the track handle the engine returns
is the result. -/
theorem play_source_activation_first (s : Session) (e : PyErr) (i : Input) :
    (PyDriver.play_source s (.error e) = (.error e, s, []))
      ∧ ((PyDriver.play_source s (.error e)).2.1.activeSources.length
          = s.activeSources.length)
      ∧ (PyDriver.play_source s (.ok i)
          = (.ok (s.enginePlaySource i).2, (s.enginePlaySource i).1,
              [.playSourceCall i])) :=
  ⟨rfl, rfl, rfl⟩

/-- Claim C5: a successful `play_only_source` performs the stop-everything-
then-start-the-new-source step as ONE guarded engine call (a single
critical section, so no interleaving point exists between the stop and the
start), after which exactly one source is active regardless of how many
were active before; on activation failure the session is untouched and no
engine call happens, as for `play_source`. -/
theorem play_only_source_atomic (s : Session) (e : PyErr) (i : Input) :
    (PyDriver.play_only_source s (.error e) = (.error e, s, []))
      ∧ ((PyDriver.play_only_source s (.ok i)).2.2 = [.playOnlySourceCall i])
      ∧ ((PyDriver.play_only_source s (.ok i)).2.1.activeSources
          = [(s.enginePlayOnlySource i).2])
      ∧ ((PyDriver.play_only_source s (.ok i)).2.1.activeSources.length = 1)
      ∧ ((PyDriver.play_only_source s (.ok i)).1
          = .ok (s.enginePlayOnlySource i).2) :=
  ⟨rfl, rfl, rfl, rfl, rfl⟩

/-- Claim C6: `connect` has exactly two outcomes.  Engine success gives a
unit result with the session connected; engine failure gives
`CouldNotConnectToRTPError` carrying the engine diagnostic, with the
session left exactly as it was (so a disconnected session stays
disconnected — no partial state).  Either way the engine is called exactly
once: no retry. -/
theorem connect_success_or_connection_failure (s : Session)
    (t ep sid : String) (g c u : Nat) (er : Except String Unit) :
    ((PyDriver.connect s t ep sid g c u (.ok ())).1 = .ok ()
        ∧ (PyDriver.connect s t ep sid g c u (.ok ())).2.1.connected = true)
      ∧ (∀ msg : String,
          (PyDriver.connect s t ep sid g c u (.error msg)).1
              = .error (.couldNotConnectToRTPError msg)
            ∧ (PyDriver.connect s t ep sid g c u (.error msg)).2.1 = s
            ∧ (PyDriver.connect s t ep sid g c u (.error msg)).2.1.connected
                = s.connected)
      ∧ ((PyDriver.connect s t ep sid g c u er).1 = .ok ()
          ∨ ∃ msg : String, (PyDriver.connect s t ep sid g c u er).1
              = .error (.couldNotConnectToRTPError msg))
      ∧ ((PyDriver.connect s t ep sid g c u er).2.2.length = 1) := by
  refine ⟨⟨rfl, rfl⟩, fun msg => ⟨rfl, rfl, rfl⟩, ?_, rfl⟩
  cases er with
  | ok v => exact Or.inl rfl
  | error msg => exact Or.inr ⟨msg, rfl⟩

/-- Claim C7: reading the mute state immediately after `setMute(x)` (the
`mute`/`unmute` pair) returns `x`, for both values of `x` and any prior
session state. -/
theorem is_muted_after_setMute (s : Session) (x : Bool) :
    (PyDriver.is_muted (PyDriver.setMute s x).2.1).1 = .ok x := by
  cases x <;> rfl

/-- Claim C8: the bitrate setting is a closed three-case tagged sum — every
value is an explicit bits-per-second, the maximum, or automatic, and
`bitsPerSecond 64000` differs from both `max` and `auto` — and each of the
three set operations replaces the session bitrate target wholesale. -/
theorem bitrate_closed_sum_and_wholesale_replace (s : Session) (n : Int) :
    (∀ b : Bitrate, (∃ m : Int, b = .bitsPerSecond m) ∨ b = .max ∨ b = .auto)
      ∧ Bitrate.bitsPerSecond 64000 ≠ Bitrate.max
      ∧ Bitrate.bitsPerSecond 64000 ≠ Bitrate.auto
      ∧ Bitrate.max ≠ Bitrate.auto
      ∧ ((PyDriver.set_bitrate s n).2.1.bitrate = .bitsPerSecond n)
      ∧ ((PyDriver.set_bitrate_to_max s).2.1.bitrate = .max)
      ∧ ((PyDriver.set_bitrate_to_auto s).2.1.bitrate = .auto)
      ∧ (∀ b : Bitrate, (s.engineSetBitrate b).bitrate = b) := by
  refine ⟨?_, by decide, by decide, by decide, rfl, rfl, rfl, fun b => rfl⟩
  intro b
  cases b with
  | bitsPerSecond m => exact Or.inl ⟨m, rfl⟩
  | max => exact Or.inr (Or.inl rfl)
  | auto => exact Or.inr (Or.inr rfl)

/-- Claim C9: concurrent `setMute(true)` and `setMute(false)` serialize at
the session guard.  Each operation accesses the session in one critical
section, so any interleaving of the two calls is observationally one of the
two sequential orders, each of which leaves the mute flag in exactly the
state requested by whichever call ran second — never a torn state. -/
theorem concurrent_setMute_serializes (s : Session) (il : List HostOp)
    (h : il ∈ interleavings [HostOp.setMuteOp true] [HostOp.setMuteOp false]) :
    (runOps s il = runOps s [HostOp.setMuteOp true, HostOp.setMuteOp false]
        ∨ runOps s il
            = runOps s [HostOp.setMuteOp false, HostOp.setMuteOp true])
      ∧ (runOps s [HostOp.setMuteOp true, HostOp.setMuteOp false]).muted = false
      ∧ (runOps s [HostOp.setMuteOp false, HostOp.setMuteOp true]).muted = true
      ∧ ((runOps s il).muted = false ∨ (runOps s il).muted = true) := by
  have hil : il = [HostOp.setMuteOp true, HostOp.setMuteOp false]
      ∨ il = [HostOp.setMuteOp false, HostOp.setMuteOp true] := by
    simpa [interleavings] using h
  rcases hil with rfl | rfl
  · exact ⟨Or.inl rfl, rfl, rfl, Or.inl rfl⟩
  · exact ⟨Or.inr rfl, rfl, rfl, Or.inr rfl⟩

/-- Witness for `concurrent_setMute_serializes`: the order that runs
`setMute(true)` first is an interleaving, and on a fresh session it leaves
the mute flag in the state of the second call. -/
theorem concurrent_setMute_serializes_witness :
    (runOps s0 [HostOp.setMuteOp true, HostOp.setMuteOp false]).muted
      = false :=
  (concurrent_setMute_serializes s0
    [HostOp.setMuteOp true, HostOp.setMuteOp false]
    (by simp [interleavings])).2.1

/-- Claim C10: `leave`, `mute`, `unmute`, `is_muted`, `stop`, the three
bitrate setters and `set_config` are infallible at this layer — each always
resolves with a success value — while the constructor gate, `connect`,
`play_source` and `play_only_source` are the operations that can resolve
with a failure. -/
theorem only_four_operations_fallible (s : Session) (n : Int) (c : Config)
    (e : PyErr) (t ep sid : String) (g ch u : Nat) (msg : String) :
    ((PyDriver.leave s).1 = .ok ())
      ∧ ((PyDriver.mute s).1 = .ok ())
      ∧ ((PyDriver.unmute s).1 = .ok ())
      ∧ ((PyDriver.is_muted s).1 = .ok s.muted)
      ∧ ((PyDriver.stop s).1 = .ok ())
      ∧ ((PyDriver.set_bitrate s n).1 = .ok ())
      ∧ ((PyDriver.set_bitrate_to_max s).1 = .ok ())
      ∧ ((PyDriver.set_bitrate_to_auto s).1 = .ok ())
      ∧ ((PyDriver.set_config s c).1 = .ok ())
      ∧ (∃ pe : PyErr, PyDriver.new = .error pe)
      ∧ ((PyDriver.connect s t ep sid g ch u (.error msg)).1
          = .error (.couldNotConnectToRTPError msg))
      ∧ ((PyDriver.play_source s (.error e)).1 = .error e)
      ∧ ((PyDriver.play_only_source s (.error e)).1 = .error e) :=
  ⟨rfl, rfl, rfl, rfl, rfl, rfl, rfl, rfl, rfl, ⟨_, rfl⟩, rfl, rfl, rfl⟩

end SongbirdPy
